import Mathlib

/-!
Verification of the schoolpay client core: the role/permission tables with
their accessor functions (super-admin/src/lib/permissions.js) and the public
payment page's confirmation flow (school-dashboard/src/pages/PayPage.jsx).

JS objects used as records/maps are embedded as association lists keyed by
strings; optional chaining (`a?.b`) becomes Option.bind and nullish
coalescing (`x ?? d`) becomes Option.getD.  Bracket access on an object
literal also consults the Object.prototype chain, so where that matters
(`can`, `roleInfo`) lookups go through `jsGet`, which falls back to the
inherited prototype member for the member names of Object.prototype.
-/

namespace SchoolPay

/-- A role descriptor as stored in the permission tables.  The synthetic
fallback object returned by `roleInfo` for unknown roles carries no `nav`
and no `can` field, so both are `Option`s here; table entries always
populate them with `some`. -/
structure RoleMeta where
  label : String
  description : String
  color : String
  nav : Option (List String)
  can : Option (List (String × Bool))
  deriving DecidableEq, Repr

/-- SCHOOL_PERMISSIONS from permissions.js lines 11-107, in source order. -/
def SCHOOL_PERMISSIONS : List (String × RoleMeta) :=
  [ ("school_admin",
     { label := "Administrator"
       description := "Full access. Manages staff, fees, and all settings."
       color := "#e8c97a"
       nav := some ["dashboard", "students", "invoices", "payments", "debtors", "approvals", "users"]
       can := some
         [ ("view_dashboard", true), ("view_students", true), ("add_student", true)
         , ("edit_student", true), ("view_invoices", true), ("generate_invoices", true)
         , ("record_cash", true), ("record_transfer", true), ("approve_transfers", true)
         , ("view_debtors", true), ("send_sms_blast", true), ("manage_fee_structure", true)
         , ("manage_users", true), ("view_activity_logs", true), ("void_payment", true) ] })
  , ("bursar",
     { label := "Bursar"
       description := "Records and approves payments. Cannot manage staff or fee structures."
       color := "#60a5fa"
       nav := some ["dashboard", "students", "invoices", "payments", "debtors", "approvals"]
       can := some
         [ ("view_dashboard", true), ("view_students", true), ("add_student", false)
         , ("edit_student", false), ("view_invoices", true), ("generate_invoices", false)
         , ("record_cash", true), ("record_transfer", true), ("approve_transfers", true)
         , ("view_debtors", true), ("send_sms_blast", true), ("manage_fee_structure", false)
         , ("manage_users", false), ("view_activity_logs", false), ("void_payment", false) ] })
  , ("teacher",
     { label := "Teacher"
       description := "View-only access to students and fee status. Cannot record payments."
       color := "#4ade80"
       nav := some ["dashboard", "students"]
       can := some
         [ ("view_dashboard", true), ("view_students", true), ("add_student", false)
         , ("edit_student", false), ("view_invoices", false), ("generate_invoices", false)
         , ("record_cash", false), ("record_transfer", false), ("approve_transfers", false)
         , ("view_debtors", false), ("send_sms_blast", false), ("manage_fee_structure", false)
         , ("manage_users", false), ("view_activity_logs", false), ("void_payment", false) ] })
  , ("accountant",
     { label := "Accountant"
       description := "Read-only financial reports. Cannot record or approve payments."
       color := "#f472b6"
       nav := some ["dashboard", "invoices", "debtors"]
       can := some
         [ ("view_dashboard", true), ("view_students", false), ("add_student", false)
         , ("edit_student", false), ("view_invoices", true), ("generate_invoices", false)
         , ("record_cash", false), ("record_transfer", false), ("approve_transfers", false)
         , ("view_debtors", true), ("send_sms_blast", false), ("manage_fee_structure", false)
         , ("manage_users", false), ("view_activity_logs", false), ("void_payment", false) ] })
  ]

/-- PLATFORM_PERMISSIONS from permissions.js lines 110-142, in source order. -/
def PLATFORM_PERMISSIONS : List (String × RoleMeta) :=
  [ ("platform_admin",
     { label := "Platform Admin"
       description := "Full platform access. Can activate/suspend schools, see all revenue."
       color := "#e8c97a"
       nav := some ["dashboard", "schools", "subscriptions", "revenue", "team"]
       can := some
         [ ("view_all_schools", true), ("activate_school", true), ("suspend_school", true)
         , ("view_revenue", true), ("manage_subscriptions", true), ("manage_team", true)
         , ("impersonate_school", true) ] })
  , ("platform_support",
     { label := "Support Staff"
       description := "Can view schools and help with issues. Cannot take financial actions."
       color := "#60a5fa"
       nav := some ["dashboard", "schools"]
       can := some
         [ ("view_all_schools", true), ("activate_school", false), ("suspend_school", false)
         , ("view_revenue", false), ("manage_subscriptions", false), ("manage_team", false)
         , ("impersonate_school", false) ] })
  ]

/-- Own-key part of `SCHOOL_PERMISSIONS[role] ?? PLATFORM_PERMISSIONS[role]`:
the table lookup without the Object.prototype chain.  `lookupRoleJS` below
adds the chain; this version answers whether a role is a key of either
table. -/
def lookupRole (role : String) : Option RoleMeta :=
  (SCHOOL_PERMISSIONS.lookup role).orElse fun _ => PLATFORM_PERMISSIONS.lookup role

/-- Own member names of `Object.prototype` in a standard JS runtime.  Every
object literal inherits these, so bracket access with one of these names on
a plain object whose own keys miss it yields a non-nullish, truthy value:
a built-in function, or the prototype object itself for `__proto__`. -/
def OBJECT_PROTOTYPE_MEMBERS : List String :=
  [ "constructor", "hasOwnProperty", "isPrototypeOf", "propertyIsEnumerable"
  , "toLocaleString", "toString", "valueOf", "__proto__"
  , "__defineGetter__", "__defineSetter__", "__lookupGetter__", "__lookupSetter__" ]

/-- Result of a JS bracket access on a string-keyed object literal: an own
property's value, a member inherited from Object.prototype (recorded by
name; such a member is a function or the prototype object, hence always
non-nullish and truthy), or undefined. -/
inductive JSProp (α : Type)
  | value (a : α)
  | protoMember (name : String)
  | undef
  deriving DecidableEq, Repr

/-- JS bracket access `obj[key]` on an object literal embedded as an
association list: the own key first, then the Object.prototype chain. -/
def jsGet {α : Type} (obj : List (String × α)) (key : String) : JSProp α :=
  match obj.lookup key with
  | some a => JSProp.value a
  | none =>
    if key ∈ OBJECT_PROTOTYPE_MEMBERS then JSProp.protoMember key else JSProp.undef

/-- `SCHOOL_PERMISSIONS[role] ?? PLATFORM_PERMISSIONS[role]` with the
prototype chain: `??` falls through only on null/undefined, and an
inherited prototype member is non-nullish, so it short-circuits. -/
def lookupRoleJS (role : String) : JSProp RoleMeta :=
  match jsGet SCHOOL_PERMISSIONS role with
  | JSProp.undef => jsGet PLATFORM_PERMISSIONS role
  | v => v

/-- The user object as consumed by `can`: possibly null, with a possibly
missing `role` field.  JS `!user?.role` also treats the empty string as a
missing role, which `roleTruthy` captures. -/
structure UserT where
  role : Option String
  deriving DecidableEq, Repr

/-- Truthiness of the `role` string in `if (!user?.role) return false`. -/
def roleTruthy : Option String → Option String
  | some s => if s = "" then none else some s
  | none => none

/-- Value returned by `can`: a boolean (from the capability map, or the
`?? false` default), or a function inherited from Object.prototype when
the capability id names one of its members — a truthy, non-boolean value. -/
inductive CanResult
  | boolR (b : Bool)
  | protoR (name : String)
  deriving DecidableEq, Repr

/-- JS truthiness of a `can` result: an inherited prototype member is a
function (or the prototype object), hence truthy. -/
def CanResult.truthy : CanResult → Bool
  | CanResult.boolR b => b
  | CanResult.protoR _ => true

/-- `can(user, action)` from permissions.js lines 150-154:
`perms?.can?.[action] ?? false`, with the prototype chain modelled.  When
the role matches no table entry, `perms` is undefined or an inherited
prototype member; neither functions nor `Object.prototype` carry a `can`
property, so the chain yields undefined and `?? false` gives false.  When
the role matches, `perms.can` is the own capability map and the bracket
access `[action]` on it consults own keys first and then Object.prototype. -/
def canJS (user : Option UserT) (action : String) : CanResult :=
  match user with
  | none => CanResult.boolR false
  | some u =>
    match roleTruthy u.role with
    | none => CanResult.boolR false
    | some role =>
      match lookupRoleJS role with
      | JSProp.value d =>
        match d.can with
        | some m =>
          match jsGet m action with
          | JSProp.value b => CanResult.boolR b
          | JSProp.protoMember n => CanResult.protoR n
          | JSProp.undef => CanResult.boolR false
        | none => CanResult.boolR false
      | _ => CanResult.boolR false

/-- `allowedNav(role)` from permissions.js lines 160-163:
`perms?.nav ?? ['dashboard']`, stated over the own-key lookup.  The
prototype chain is immaterial here — an inherited prototype member carries
no truthy `nav`, so the chain-aware `allowedNavJS` below is proved
extensionally equal to this function on every string. -/
def allowedNav (role : String) : List String :=
  (((lookupRole role).bind RoleMeta.nav)).getD ["dashboard"]

/-- `allowedNav(role)` with the prototype chain: when `perms` is an
inherited prototype member (role named `toString`, `__proto__`, ...),
`perms?.nav` is undefined — neither functions nor `Object.prototype` have
a `nav` property — and `?? ['dashboard']` yields the default. -/
def allowedNavJS (role : String) : List String :=
  match lookupRoleJS role with
  | JSProp.value d => d.nav.getD ["dashboard"]
  | _ => ["dashboard"]

/-- The synthetic fallback descriptor built by `roleInfo` for unknown roles:
`{ label: role, description: '', color: '#64748b' }` (no nav, no can field). -/
def fallbackMeta (role : String) : RoleMeta :=
  { label := role, description := "", color := "#64748b", nav := none, can := none }

/-- Own-key model of `roleInfo(role)` (permissions.js lines 168-172); the
prototype-chain-aware version is `roleInfoJS` below, which differs exactly
on the Object.prototype member names. -/
def roleInfo (role : String) : RoleMeta :=
  (lookupRole role).getD (fallbackMeta role)

/-- Value returned by `roleInfo`: a role descriptor (a table entry or the
synthetic fallback), or an inherited Object.prototype member when the role
string names one. -/
inductive RoleInfoResult
  | meta (d : RoleMeta)
  | protoR (name : String)
  deriving DecidableEq, Repr

/-- `roleInfo(role)` from permissions.js lines 168-172 with the prototype
chain: `SCHOOL_PERMISSIONS[role] ?? PLATFORM_PERMISSIONS[role] ?? fallback`.
An inherited prototype member is non-nullish, so for a role named after an
Object.prototype member the fallback literal is never reached and the
inherited member itself is returned. -/
def roleInfoJS (role : String) : RoleInfoResult :=
  match lookupRoleJS role with
  | JSProp.value d => RoleInfoResult.meta d
  | JSProp.protoMember n => RoleInfoResult.protoR n
  | JSProp.undef => RoleInfoResult.meta (fallbackMeta role)

/-- Capability identifiers referenced by the school-dashboard UI: the keys of
CAPABILITY_LABELS in school-dashboard/src/pages/Users.jsx lines 323-339. -/
def SCHOOL_UI_CAPABILITIES : List String :=
  [ "view_dashboard", "view_students", "add_student", "edit_student"
  , "view_invoices", "generate_invoices", "record_cash", "record_transfer"
  , "approve_transfers", "view_debtors", "send_sms_blast", "manage_fee_structure"
  , "manage_users", "view_activity_logs", "void_payment" ]

/-- Capability identifiers referenced by the super-admin UI: the keys of
PLATFORM_CAP_LABELS in super-admin/src/pages/Team.jsx lines 274-282. -/
def PLATFORM_UI_CAPABILITIES : List String :=
  [ "view_all_schools", "activate_school", "suspend_school", "view_revenue"
  , "manage_subscriptions", "manage_team", "impersonate_school" ]

/-- All capability identifiers referenced anywhere in the UI of the repository. -/
def UI_CAPABILITIES : List String :=
  SCHOOL_UI_CAPABILITIES ++ PLATFORM_UI_CAPABILITIES

/-!
Payment confirmation flow, from school-dashboard/src/pages/PayPage.jsx.
-/

/-- The `payment` object of a status response: `{ status, amount, receipt_number }`. -/
structure Payment where
  status : String
  amount : Int
  receipt_number : String
  deriving DecidableEq, Repr

/-- Body of `GET /pay/{token}/status?reference={ref}` as destructured at
line 68: `const { payment, invoice_status } = res.data`; `payment` may be
null and `invoice_status` may be absent. -/
structure StatusResp where
  payment : Option Payment
  invoice_status : Option String
  deriving DecidableEq, Repr

/-- The settlement test at line 70:
`payment?.status === 'success' || invoice_status === 'paid'`. -/
def settles (r : StatusResp) : Bool :=
  (match r.payment with
   | some p => p.status == "success"
   | none => false)
  || (match r.invoice_status with
      | some s => s == "paid"
      | none => false)

/-- The screen tag held in PayPage state (line 27). -/
inductive Screen
  | main
  | processing
  | success
  | failed
  deriving DecidableEq, Repr

/-- A status-check response as delivered to one polling attempt: either the
parsed body, or a network/parse error (the `catch` branch). -/
abbrev StatusOutcome := Except Unit StatusResp

/-- `maxAttempts = 20` at line 62 of startPolling. -/
def maxAttempts : Nat := 20

/-- Wall-clock time in milliseconds of the n-th polling attempt (1-indexed):
`check()` runs immediately (line 90) and `setInterval(check, 3000)` schedules
each later attempt 3000 ms after the previous one (line 91). -/
def pollAttemptTime (n : Nat) : Nat := 3000 * (n - 1)

/-- State of the startPolling loop (lines 59-92): the screen it drives, the
receipt snapshot, the attempt counter, whether the interval is still armed
(`pollRef.current` non-null), the times of the status-check requests it has
issued, and how many invoice-refresh fetches the success branch fired. -/
structure PollState where
  screen : Screen
  receipt : Option Payment
  attempts : Nat
  active : Bool
  requestTimes : List Nat
  invoiceRefreshes : Nat
  deriving DecidableEq, Repr

/-- Loop state right after `startPolling` is invoked from the redirect
effect (line 48 set the screen to processing first). -/
def pollInit : PollState :=
  { screen := Screen.processing, receipt := none, attempts := 0
    active := true, requestTimes := [], invoiceRefreshes := 0 }

/-- One completion of `check` (lines 64-88).  `respond n` is the outcome of
the n-th status request.  If the interval has been cleared no request is
issued and nothing changes; otherwise the attempt counter increments, the
request goes out, and the response is dispatched exactly as in the source:
settlement clears the interval, records the receipt, moves to success and
refreshes the invoice; otherwise reaching `maxAttempts` clears the interval
and moves to failed; a thrown error takes the same exhaustion check. -/
def pollStep (respond : Nat → StatusOutcome) (s : PollState) : PollState :=
  if s.active then
    let n := s.attempts + 1
    let s' := { s with attempts := n
                       requestTimes := s.requestTimes ++ [pollAttemptTime n] }
    match respond n with
    | Except.ok r =>
      if settles r then
        { s' with active := false, receipt := r.payment, screen := Screen.success
                  invoiceRefreshes := s'.invoiceRefreshes + 1 }
      else if maxAttempts ≤ n then
        { s' with active := false, screen := Screen.failed }
      else s'
    | Except.error _ =>
      if maxAttempts ≤ n then
        { s' with active := false, screen := Screen.failed }
      else s'
  else s

/-- The loop after its first `n` scheduled completions. -/
def pollRun (respond : Nat → StatusOutcome) : Nat → PollState
  | 0 => pollInit
  | n + 1 => pollStep respond (pollRun respond n)

/-- No response of this endpoint ever reports settlement (errors allowed). -/
def neverSettles (respond : Nat → StatusOutcome) : Prop :=
  ∀ k r, respond k = Except.ok r → settles r = false

/-!
Mount behaviour and render cascade of PayPage.
-/

/-- Body of `GET /pay/{token}`; only the fields the flow logic reads. -/
structure Invoice where
  status : String
  can_pay_online : Bool
  deriving DecidableEq, Repr

/-- `URLSearchParams.get`: first value bound to the key, or null. -/
def getParam (params : List (String × String)) (key : String) : Option String :=
  params.lookup key

/-- JS truthiness of a string-or-null query value: the empty string is falsy. -/
def truthyParam : Option String → Option String
  | some s => if s = "" then none else some s
  | none => none

/-- Reference detection in the PayPage mount effect (line 42):
`params.get('reference') || params.get('trxref') || params.get('ref')`,
followed by the falsy guard `if (!ref) return`. -/
def detectRef (params : List (String × String)) : Option String :=
  match truthyParam (getParam params "reference") with
  | some v => some v
  | none =>
    match truthyParam (getParam params "trxref") with
    | some v => some v
    | none => truthyParam (getParam params "ref")

/-- Reference detection inside ProcessingScreen (line 478), which checks
only `reference` and `trxref`. -/
def psDetectRef (params : List (String × String)) : Option String :=
  match truthyParam (getParam params "reference") with
  | some v => some v
  | none => truthyParam (getParam params "trxref")

/-- Outcome of the mount effects of PayPage: the screen after the redirect
detection effect ran, the query parameters left in the visible URL after
`history.replaceState({}, '', pathname)`, the reference `startPolling` was
invoked with (none when it was not invoked), and the invoice-load effect's
result (lines 32-37). -/
structure PageInit where
  screen : Screen
  visibleParams : List (String × String)
  polling : Option String
  invoice : Option Invoice
  loading : Bool
  error : String
  deriving DecidableEq, Repr

/-- Both mount effects of PayPage (lines 32-50): the invoice fetch settles
`invoice`/`error`/`loading`, and the redirect effect — which never reads the
invoice result — detects a reference, strips the query string from the
visible URL, sets the screen to processing and starts polling. -/
def mountPage (params : List (String × String))
    (invResult : Except Unit Invoice) : PageInit :=
  let base : PageInit :=
    { screen := Screen.main, visibleParams := params, polling := none
      invoice := match invResult with
        | Except.ok inv => some inv
        | Except.error _ => none
      loading := false
      error := match invResult with
        | Except.ok _ => ""
        | Except.error _ => "This payment link is invalid or has expired." }
  match detectRef params with
  | none => base
  | some r => { base with screen := Screen.processing, visibleParams := [], polling := some r }

/-- The view the render cascade of PayPage (lines 95-179) picks. -/
inductive View
  | loadingView
  | errorView
  | processingView
  | successView
  | failedView
  | alreadyPaidView
  | mainView
  deriving DecidableEq, Repr

/-- The render cascade in source order: loading, error, the three explicit
screens, then `invoice?.status === 'paid'` for already-paid, else main. -/
def renderPage (st : PageInit) : View :=
  if st.loading then View.loadingView
  else if st.error ≠ "" then View.errorView
  else match st.screen with
    | Screen.processing => View.processingView
    | Screen.success => View.successView
    | Screen.failed => View.failedView
    | Screen.main =>
      if (st.invoice.map Invoice.status) = some "paid" then View.alreadyPaidView
      else View.mainView

/-!
Whole-page timed model of a redirect session.

After a provider redirect PayPage strips the URL, sets the screen to
processing and starts its own polling loop; the rendered ProcessingScreen
then re-reads the (already stripped) URL, finds no reference, and schedules
the referenceless fallback `setTimeout(..., 4000)` of lines 502-508 — its
refful polling branch (lines 480-499) is unreachable in this scenario.  The
session is a fold over timer events in chronological order.
-/

/-- A network request issued by the page: a status check carrying the
provider reference, the referenceless status check of ProcessingScreen's
fallback, or the invoice refresh fired by the success branch (line 75). -/
inductive ReqKind
  | statusRef (ref : String)
  | statusNoRef
  | invoiceFetch
  deriving DecidableEq, Repr

/-- Timer events of the session: a completion of the parent polling loop's
`check`, the 4-second ProcessingScreen fallback timeout, and React unmount
of the whole page. -/
inductive PageEvent
  | tick
  | psTimeout
  | unmountEv
  deriving DecidableEq, Repr

/-- Insert an event before the first strictly later one (stable merge). -/
def insertEv (e : Nat × PageEvent) : List (Nat × PageEvent) → List (Nat × PageEvent)
  | [] => [e]
  | x :: xs => if e.1 < x.1 then e :: x :: xs else x :: insertEv e xs

/-- The parent loop's check completions: immediate first check, then every
3000 ms; 20 events cover the whole attempt budget. -/
def tickSchedule : List (Nat × PageEvent) :=
  (List.range maxAttempts).map fun k => (3000 * k, PageEvent.tick)

/-- Timer events of an undisturbed redirect session: the 20 parent checks
merged with the ProcessingScreen fallback timeout at 4000 ms. -/
def baseSchedule : List (Nat × PageEvent) :=
  insertEv (4000, PageEvent.psTimeout) tickSchedule

/-- A redirect session interrupted by unmounting the page at time `u`. -/
def schedWithUnmount (u : Nat) : List (Nat × PageEvent) :=
  insertEv (u, PageEvent.unmountEv) baseSchedule

/-- Session state: PayPage's screen and receipt, the parent loop's attempt
counter and interval flag, whether the fallback timeout is still pending,
whether the page is still mounted, and the log of issued requests with
their times. -/
structure PageState where
  screen : Screen
  receipt : Option Payment
  attempts : Nat
  parentActive : Bool
  psTimeoutPending : Bool
  pageMounted : Bool
  requests : List (Nat × ReqKind)
  deriving DecidableEq, Repr

/-- Session state right after the redirect mount: screen processing, parent
interval armed, fallback timeout scheduled. -/
def pageInit : PageState :=
  { screen := Screen.processing, receipt := none, attempts := 0
    parentActive := true, psTimeoutPending := true, pageMounted := true
    requests := [] }

/-- One timer event.  `respond n` is the outcome of the parent loop's n-th
refful status check; `psPaid` is the outcome of the referenceless check
(`is_paid` field, lines 504-507); `ref` is the stripped provider reference.

A tick is the parent `check` of lines 64-88.  The fallback timeout always
issues its request once — its id is never stored, so nothing cancels it —
but its `onSuccess`/`onFailed` callbacks are state updates of PayPage and
take effect only while the page is mounted.  Unmount runs the cleanup
effects: `clearPolling()` for the parent interval and ProcessingScreen's
cleanup, which clears its own (here unused) interval ids only. -/
def stepEvent (respond : Nat → StatusOutcome) (psPaid : Except Unit Bool)
    (ref : String) (s : PageState) (e : Nat × PageEvent) : PageState :=
  match e.2 with
  | PageEvent.tick =>
    if s.parentActive then
      let n := s.attempts + 1
      let s' := { s with attempts := n
                         requests := s.requests ++ [(e.1, ReqKind.statusRef ref)] }
      match respond n with
      | Except.ok r =>
        if settles r then
          { s' with parentActive := false, receipt := r.payment
                    screen := Screen.success
                    requests := s'.requests ++ [(e.1, ReqKind.invoiceFetch)] }
        else if maxAttempts ≤ n then
          { s' with parentActive := false, screen := Screen.failed }
        else s'
      | Except.error _ =>
        if maxAttempts ≤ n then
          { s' with parentActive := false, screen := Screen.failed }
        else s'
    else s
  | PageEvent.psTimeout =>
    if s.psTimeoutPending then
      let s' := { s with psTimeoutPending := false
                         requests := s.requests ++ [(e.1, ReqKind.statusNoRef)] }
      if s.pageMounted then
        match psPaid with
        | Except.ok true => { s' with screen := Screen.success, receipt := none }
        | Except.ok false => { s' with screen := Screen.failed }
        | Except.error _ => { s' with screen := Screen.failed }
      else s'
    else s
  | PageEvent.unmountEv =>
    { s with pageMounted := false, parentActive := false }

/-- Run a redirect session over a schedule of timer events. -/
def runPage (respond : Nat → StatusOutcome) (psPaid : Except Unit Bool)
    (ref : String) (sched : List (Nat × PageEvent)) : PageState :=
  sched.foldl (stepEvent respond psPaid ref) pageInit

/-- Requests of the referenceless fallback check. -/
def isNoRef (q : Nat × ReqKind) : Bool :=
  match q.2 with
  | ReqKind.statusNoRef => true
  | _ => false

/-- Concrete endpoints used to instantiate the polling theorems: one that
always fails with a network error, and one that settles on the third
attempt. -/
def errRespond : Nat → StatusOutcome := fun _ => Except.error ()

def okRespond : Nat → StatusOutcome := fun n =>
  if n = 3 then Except.ok ⟨some ⟨"success", 100, "R1"⟩, none⟩ else Except.error ()

/-!
Theorems.
-/

/-- Helper: no Object.prototype member name is a key of the platform
table (nor, a fortiori, of the school table, handled by evaluation). -/
theorem proto_members_not_platform_keys :
    ∀ r ∈ OBJECT_PROTOTYPE_MEMBERS, PLATFORM_PERMISSIONS.lookup r = none := by
  decide

/-- Helper: the chain-aware role lookup yields a table entry exactly when
the own-key lookup does — no table key names an Object.prototype member,
so the inherited-member case never shadows a platform entry. -/
theorem lookupRoleJS_value_iff (role : String) (d : RoleMeta) :
    lookupRoleJS role = JSProp.value d ↔ lookupRole role = some d := by
  unfold lookupRoleJS lookupRole jsGet
  cases hs : SCHOOL_PERMISSIONS.lookup role with
  | some a => simp [hs, Option.orElse]
  | none =>
    by_cases hm : role ∈ OBJECT_PROTOTYPE_MEMBERS
    · have hplat := proto_members_not_platform_keys role hm
      simp [hs, hm, hplat, Option.orElse]
    · cases hp : PLATFORM_PERMISSIONS.lookup role with
      | some a => simp [hs, hm, hp, Option.orElse]
      | none => simp [hs, hm, hp, Option.orElse]

/-- Helper: when the chain-aware lookup finds no table entry, neither does
the own-key lookup. -/
theorem lookupRole_none_of_not_value (role : String)
    (h : ∀ d, lookupRoleJS role ≠ JSProp.value d) : lookupRole role = none := by
  cases hl : lookupRole role with
  | none => rfl
  | some d => exact absurd ((lookupRoleJS_value_iff role d).mpr hl) (h d)

/-- Helper: a capability key missing from the matched role's map that does
not name an Object.prototype member makes `can` return false. -/
theorem canJS_missing_key (role : String) (d : RoleMeta) (m : List (String × Bool))
    (a : String) (hd : lookupRoleJS role = JSProp.value d) (hm : d.can = some m)
    (ha : m.lookup a = none) (hp : a ∉ OBJECT_PROTOTYPE_MEMBERS) :
    canJS (some ⟨some role⟩) a = CanResult.boolR false := by
  by_cases hr : role = ""
  · subst hr
    rw [show lookupRoleJS "" = JSProp.undef from by decide] at hd
    exact absurd hd (by simp)
  · simp [canJS, roleTruthy, hr, hd, hm, jsGet, ha, hp]

/-- Helper: a capability key missing from the matched role's map that does
name an Object.prototype member makes `can` return the inherited member. -/
theorem canJS_proto_key (role : String) (d : RoleMeta) (m : List (String × Bool))
    (a : String) (hd : lookupRoleJS role = JSProp.value d) (hm : d.can = some m)
    (ha : m.lookup a = none) (hp : a ∈ OBJECT_PROTOTYPE_MEMBERS) :
    canJS (some ⟨some role⟩) a = CanResult.protoR a := by
  by_cases hr : role = ""
  · subst hr
    rw [show lookupRoleJS "" = JSProp.undef from by decide] at hd
    exact absurd hd (by simp)
  · simp [canJS, roleTruthy, hr, hd, hm, jsGet, ha, hp]

/-- Claim C1 counterexample: with user role `bursar` — a matched table
role — and capability id `toString`, which is absent from bursar's
capability map, `can` returns the inherited, truthy
`Object.prototype.toString`, not false: the bracket access consults the
prototype chain, so `?? false` never fires. -/
theorem can_proto_key_not_false :
    (((lookupRole "bursar").bind RoleMeta.can).bind
        fun m => m.lookup "toString") = none
    ∧ canJS (some ⟨some "bursar"⟩) "toString" = CanResult.protoR "toString"
    ∧ (canJS (some ⟨some "bursar"⟩) "toString").truthy = true
    ∧ canJS (some ⟨some "bursar"⟩) "toString" ≠ CanResult.boolR false := by
  decide

/-- Claim C1 (amended): `can` never throws (it is a total function).  It
returns false for a null/undefined user, for a user lacking a role (or
with the falsy empty-string role), and — for every capability — whenever
the role matches no table entry, whether that lookup lands on undefined or
on an inherited prototype member (neither carries a `can` property).  For
a matched role, a capability id absent from the role's own map resolves to
false exactly when it does not name an Object.prototype member; an absent
id that names one resolves to the inherited truthy member instead of
false. -/
theorem can_fail_closed_prototype :
    (∀ a, canJS none a = CanResult.boolR false)
    ∧ (∀ a, canJS (some ⟨none⟩) a = CanResult.boolR false)
    ∧ (∀ a, canJS (some ⟨some ""⟩) a = CanResult.boolR false)
    ∧ (∀ role a, (∀ d, lookupRoleJS role ≠ JSProp.value d) →
        canJS (some ⟨some role⟩) a = CanResult.boolR false)
    ∧ (∀ role d m a, lookupRoleJS role = JSProp.value d → d.can = some m →
        m.lookup a = none → a ∉ OBJECT_PROTOTYPE_MEMBERS →
        canJS (some ⟨some role⟩) a = CanResult.boolR false)
    ∧ (∀ role d m a, lookupRoleJS role = JSProp.value d → d.can = some m →
        m.lookup a = none → a ∈ OBJECT_PROTOTYPE_MEMBERS →
        canJS (some ⟨some role⟩) a = CanResult.protoR a) := by
  refine ⟨fun a => rfl, fun a => rfl, fun a => by simp [canJS, roleTruthy],
    ?_, canJS_missing_key, canJS_proto_key⟩
  intro role a h
  by_cases hr : role = ""
  · subst hr; simp [canJS, roleTruthy]
  · cases hl : lookupRoleJS role with
    | value d => exact absurd hl (h d)
    | protoMember n => simp [canJS, roleTruthy, hr, hl]
    | undef => simp [canJS, roleTruthy, hr, hl]

/-- Witness for C1 (amended): an unknown role and a prototype-named role
are denied every capability; a matched role is denied a missing
non-prototype capability and receives the inherited member for a missing
prototype-named one. -/
theorem can_fail_closed_prototype_witness :
    canJS (some ⟨some "ghost_role"⟩) "record_cash" = CanResult.boolR false
    ∧ canJS (some ⟨some "__proto__"⟩) "record_cash" = CanResult.boolR false
    ∧ canJS (some ⟨some "bursar"⟩) "view_all_schools" = CanResult.boolR false
    ∧ canJS (some ⟨some "bursar"⟩) "valueOf" = CanResult.protoR "valueOf" :=
  ⟨can_fail_closed_prototype.2.2.2.1 "ghost_role" "record_cash"
     (fun d h => by
       simp [show lookupRoleJS "ghost_role" = JSProp.undef from by decide] at h),
   can_fail_closed_prototype.2.2.2.1 "__proto__" "record_cash"
     (fun d h => by
       simp [show lookupRoleJS "__proto__" = JSProp.protoMember "__proto__"
         from by decide] at h),
   can_fail_closed_prototype.2.2.2.2.1 "bursar" (roleInfo "bursar")
     (((roleInfo "bursar").can).getD []) "view_all_schools"
     (by decide) (by decide) (by decide) (by decide),
   can_fail_closed_prototype.2.2.2.2.2 "bursar" (roleInfo "bursar")
     (((roleInfo "bursar").can).getD []) "valueOf"
     (by decide) (by decide) (by decide) (by decide)⟩

/-- Claim C5 counterexample: the capability id `view_all_schools` is
referenced in the UI (super-admin Team.jsx), `school_admin` is a role
defined in a descriptor table, yet that id is not a key of
`school_admin`'s capability map — so the claim as stated is false. -/
theorem ui_capability_missing_crossapp :
    ("view_all_schools" ∈ UI_CAPABILITIES)
    ∧ (lookupRole "school_admin").isSome = true
    ∧ (((lookupRole "school_admin").bind RoleMeta.can).bind
        fun m => m.lookup "view_all_schools") = none := by
  decide

/-- Claim C5 (amended): every capability id referenced in the
school-dashboard UI is a key of every school role's capability map, every
capability id referenced in the super-admin UI is a key of every platform
role's capability map, and no UI-referenced capability id names an
Object.prototype member; a capability key missing from a role's map
resolves to false via `can` — never to an error and never to true —
whenever it does not name an Object.prototype member (an absent
prototype-named key instead resolves to the inherited truthy function,
the C1 counterexample). -/
theorem capability_maps_complete_per_app :
    (∀ p ∈ SCHOOL_PERMISSIONS, ∀ c ∈ SCHOOL_UI_CAPABILITIES,
        ((p.2.can.getD []).lookup c).isSome = true)
    ∧ (∀ p ∈ PLATFORM_PERMISSIONS, ∀ c ∈ PLATFORM_UI_CAPABILITIES,
        ((p.2.can.getD []).lookup c).isSome = true)
    ∧ (∀ c ∈ UI_CAPABILITIES, c ∉ OBJECT_PROTOTYPE_MEMBERS)
    ∧ (∀ role d m a, lookupRoleJS role = JSProp.value d → d.can = some m →
        m.lookup a = none → a ∉ OBJECT_PROTOTYPE_MEMBERS →
        canJS (some ⟨some role⟩) a = CanResult.boolR false) :=
  ⟨by decide, by decide, by decide, canJS_missing_key⟩

/-- Witness for C5 (amended): a school role's map contains a school UI
capability, that capability names no prototype member, and a key missing
from a role's map resolves to false. -/
theorem capability_maps_complete_per_app_witness :
    (((roleInfo "school_admin").can.getD []).lookup "record_cash").isSome = true
    ∧ "record_cash" ∉ OBJECT_PROTOTYPE_MEMBERS
    ∧ canJS (some ⟨some "platform_support"⟩) "record_cash" = CanResult.boolR false :=
  ⟨capability_maps_complete_per_app.1 ("school_admin", roleInfo "school_admin")
     (by decide) "record_cash" (by decide),
   capability_maps_complete_per_app.2.2.1 "record_cash" (by decide),
   capability_maps_complete_per_app.2.2.2 "platform_support"
     (roleInfo "platform_support") (((roleInfo "platform_support").can).getD [])
     "record_cash" (by decide) (by decide) (by decide) (by decide)⟩

/-- Claim C6: `allowedNav` returns the role's navigation list when the role
is a key of either descriptor table, and the single-element default
`["dashboard"]` for any role present in neither table; it is a total
function, so it never throws. -/
theorem allowedNav_default_for_unknown :
    (∀ role d l, lookupRole role = some d → d.nav = some l → allowedNav role = l)
    ∧ (∀ role, lookupRole role = none → allowedNav role = ["dashboard"]) := by
  constructor
  · intro role d l hd hl
    simp [allowedNav, hd, hl]
  · intro role h
    simp [allowedNav, h]

/-- Witness for C6: a defined role gets its own navigation list, an unknown
role gets the default. -/
theorem allowedNav_default_for_unknown_witness :
    allowedNav "teacher" = ["dashboard", "students"]
    ∧ allowedNav "legacy_role" = ["dashboard"] :=
  ⟨allowedNav_default_for_unknown.1 "teacher" (roleInfo "teacher")
     ["dashboard", "students"] (by decide) (by decide),
   allowedNav_default_for_unknown.2 "legacy_role" (by decide)⟩

/-- Claim C7 counterexample: `toString` is a key of neither table, yet
`roleInfo` does not return the synthetic fallback descriptor for it — the
bracket access finds the inherited `Object.prototype.toString`, which is
non-nullish, so `??` never reaches the fallback literal. -/
theorem roleInfo_proto_not_fallback :
    lookupRole "toString" = none
    ∧ roleInfoJS "toString" = RoleInfoResult.protoR "toString"
    ∧ roleInfoJS "toString" ≠ RoleInfoResult.meta (fallbackMeta "toString") := by
  decide

/-- Claim C7 (amended): `roleInfo` is total on strings — it never throws
and never returns undefined.  It returns the matched descriptor for a role
present in either table; the synthetic fallback — label equal to the raw
input string, empty description, neutral color `#64748b` — for every other
string that does not name an Object.prototype member, including the empty
string and unexpected casing; and for a string that does name an
Object.prototype member, the inherited member itself (a non-nullish
value, not the fallback). -/
theorem roleInfo_total_fallback_prototype :
    (∀ role d, lookupRoleJS role = JSProp.value d →
        roleInfoJS role = RoleInfoResult.meta d)
    ∧ (∀ role, lookupRoleJS role = JSProp.undef →
        roleInfoJS role = RoleInfoResult.meta
          { label := role, description := "", color := "#64748b"
            nav := none, can := none })
    ∧ (∀ role n, lookupRoleJS role = JSProp.protoMember n →
        roleInfoJS role = RoleInfoResult.protoR n) := by
  refine ⟨?_, ?_, ?_⟩
  · intro role d h
    simp [roleInfoJS, h]
  · intro role h
    simp [roleInfoJS, h, fallbackMeta]
  · intro role n h
    simp [roleInfoJS, h]

/-- Witness for C7 (amended): a matched role, the empty string, an
unexpected-casing string, and a prototype member name each produce the
defined value the theorem assigns them. -/
theorem roleInfo_total_fallback_prototype_witness :
    roleInfoJS "platform_support" = RoleInfoResult.meta
        { label := "Support Staff"
          description := "Can view schools and help with issues. Cannot take financial actions."
          color := "#60a5fa"
          nav := some ["dashboard", "schools"]
          can := some
            [ ("view_all_schools", true), ("activate_school", false), ("suspend_school", false)
            , ("view_revenue", false), ("manage_subscriptions", false), ("manage_team", false)
            , ("impersonate_school", false) ] }
    ∧ roleInfoJS "" = RoleInfoResult.meta
        { label := "", description := "", color := "#64748b", nav := none, can := none }
    ∧ roleInfoJS "SCHOOL_ADMIN" = RoleInfoResult.meta
        { label := "SCHOOL_ADMIN", description := "", color := "#64748b"
          nav := none, can := none }
    ∧ roleInfoJS "__proto__" = RoleInfoResult.protoR "__proto__" :=
  ⟨roleInfo_total_fallback_prototype.1 "platform_support" _ (by decide),
   roleInfo_total_fallback_prototype.2.1 "" (by decide),
   roleInfo_total_fallback_prototype.2.1 "SCHOOL_ADMIN" (by decide),
   roleInfo_total_fallback_prototype.2.2 "__proto__" "__proto__" (by decide)⟩

/-- Helper: the own-key `allowedNav` of the C6 theorem agrees with the
chain-aware `allowedNavJS` on every string, so the prototype chain cannot
change any `allowedNav` result: an inherited prototype member carries no
truthy `nav`, and the `?? ['dashboard']` default results either way. -/
theorem allowedNav_eq_allowedNavJS (role : String) :
    allowedNavJS role = allowedNav role := by
  unfold allowedNav allowedNavJS
  cases hl : lookupRoleJS role with
  | value d =>
    rw [(lookupRoleJS_value_iff role d).mp hl]
    rfl
  | protoMember n =>
    rw [lookupRole_none_of_not_value role (fun d hd => by rw [hl] at hd; simp at hd)]
    rfl
  | undef =>
    rw [lookupRole_none_of_not_value role (fun d hd => by rw [hl] at hd; simp at hd)]
    rfl

/-- Helper: once `clearInterval` has run, a scheduled completion changes
nothing and issues no request. -/
theorem pollStep_inactive (respond : Nat → StatusOutcome) (s : PollState)
    (h : s.active = false) : pollStep respond s = s := by
  simp [pollStep, h]

/-- Helper: the loop is stationary after the interval is cleared. -/
theorem pollRun_absorb (respond : Nat → StatusOutcome) (N : Nat)
    (h : (pollRun respond N).active = false) :
    ∀ n, N ≤ n → pollRun respond n = pollRun respond N := by
  intro n hn
  obtain ⟨m, rfl⟩ := Nat.exists_eq_add_of_le hn
  induction m with
  | zero => rfl
  | succ k ih =>
    show pollStep respond (pollRun respond (N + k)) = _
    rw [ih (Nat.le_add_right N k), pollStep_inactive respond _ h]

/-- Helper: while no processed response has settled and the budget is not
exhausted, the loop stays in processing with the interval armed, having
issued one request per attempt at 3-second spacing from time zero. -/
theorem pollRun_processing (respond : Nat → StatusOutcome) :
    ∀ n, n < maxAttempts →
    (∀ k r, 1 ≤ k → k ≤ n → respond k = Except.ok r → settles r = false) →
    pollRun respond n =
      { screen := Screen.processing, receipt := none, attempts := n, active := true
        requestTimes := (List.range n).map fun k => 3000 * k
        invoiceRefreshes := 0 } := by
  intro n
  induction n with
  | zero => intro _ _; rfl
  | succ m ih =>
    intro hlt hns
    have hrec := ih (Nat.lt_of_succ_lt hlt)
      (fun k r hk1 hk2 h => hns k r hk1 (Nat.le_succ_of_le hk2) h)
    show pollStep respond (pollRun respond m) = _
    rw [hrec]
    cases hr : respond (m + 1) with
    | ok r =>
      have hs : settles r = false :=
        hns (m + 1) r (Nat.succ_le_succ (Nat.zero_le m)) (Nat.le_refl _) hr
      simp [pollStep, pollAttemptTime, hr, hs, Nat.not_le.mpr hlt, List.range_succ]
    | error e =>
      simp [pollStep, pollAttemptTime, hr, Nat.not_le.mpr hlt, List.range_succ]

/-- Claim C2: against a status endpoint that never reports settlement
(non-settling responses and network/parse errors alike — each merely
consumes one attempt), the startPolling loop stays in processing through
the first 19 attempts, transitions to failed exactly at the 20th, has then
issued exactly 20 status-check requests — an immediate first one at time 0
and one every 3000 ms thereafter — and afterwards is stationary, issuing no
further requests. -/
theorem polling_exhausts_budget (respond : Nat → StatusOutcome)
    (h : neverSettles respond) :
    (∀ n, n < maxAttempts →
      (pollRun respond n).screen = Screen.processing
      ∧ (pollRun respond n).requestTimes = (List.range n).map fun k => 3000 * k)
    ∧ (pollRun respond maxAttempts).screen = Screen.failed
    ∧ (pollRun respond maxAttempts).requestTimes
        = (List.range maxAttempts).map (fun k => 3000 * k)
    ∧ (pollRun respond maxAttempts).requestTimes.length = maxAttempts
    ∧ (∀ n, maxAttempts ≤ n → pollRun respond n = pollRun respond maxAttempts) := by
  have hfull : pollRun respond maxAttempts =
      { screen := Screen.failed, receipt := none, attempts := maxAttempts
        active := false
        requestTimes := (List.range maxAttempts).map fun k => 3000 * k
        invoiceRefreshes := 0 } := by
    have h19 := pollRun_processing respond 19 (by decide)
      (fun k r _ _ hk => h k r hk)
    show pollStep respond (pollRun respond 19) = _
    rw [h19]
    cases hr : respond 20 with
    | ok r =>
      have hs : settles r = false := h 20 r hr
      simp [pollStep, pollAttemptTime, hr, hs, maxAttempts,
        show (20 : Nat) = 19 + 1 from rfl, List.range_succ]
    | error e =>
      simp [pollStep, pollAttemptTime, hr, maxAttempts,
        show (20 : Nat) = 19 + 1 from rfl, List.range_succ]
  refine ⟨?_, ?_, ?_, ?_, ?_⟩
  · intro n hn
    rw [pollRun_processing respond n hn (fun k r _ _ hk => h k r hk)]
    exact ⟨rfl, rfl⟩
  · rw [hfull]
  · rw [hfull]
  · rw [hfull]; simp
  · exact pollRun_absorb respond maxAttempts (by rw [hfull])

/-- Witness for C2: a pure network-error endpoint drives the loop to failed
at attempt 20 with requests at 0, 3000, ..., 57000 ms and none afterwards. -/
theorem polling_exhausts_budget_witness :
    neverSettles errRespond
    ∧ (pollRun errRespond maxAttempts).screen = Screen.failed
    ∧ (pollRun errRespond maxAttempts).requestTimes.length = maxAttempts
    ∧ pollRun errRespond 30 = pollRun errRespond maxAttempts := by
  have hns : neverSettles errRespond := fun k r hk => by
    simp [errRespond] at hk
  have hthm := polling_exhausts_budget errRespond hns
  exact ⟨hns, hthm.2.1, hthm.2.2.2.1, hthm.2.2.2.2 30 (by decide)⟩

/-- Claim C3: if attempts before N settle in no response (error or
not-yet-settled alike) and attempt N's response carries
`payment.status == "success"` or `invoice_status == "paid"`, the loop
moves to success at attempt N, records the response's payment object as
the receipt snapshot, has issued exactly N status-check requests, and is
stationary from then on, issuing no further requests. -/
theorem polling_success_at_attempt (respond : Nat → StatusOutcome)
    (N : Nat) (r : StatusResp)
    (h1 : 1 ≤ N) (h2 : N ≤ maxAttempts)
    (hbefore : ∀ k rr, 1 ≤ k → k < N → respond k = Except.ok rr → settles rr = false)
    (hN : respond N = Except.ok r) (hs : settles r = true) :
    (pollRun respond N).screen = Screen.success
    ∧ (pollRun respond N).receipt = r.payment
    ∧ (pollRun respond N).requestTimes = (List.range N).map (fun k => 3000 * k)
    ∧ (pollRun respond N).requestTimes.length = N
    ∧ (∀ n, N ≤ n → pollRun respond n = pollRun respond N) := by
  obtain ⟨m, rfl⟩ : ∃ m, N = m + 1 := ⟨N - 1, (Nat.succ_pred_eq_of_pos h1).symm⟩
  have hm : m < maxAttempts := Nat.lt_of_lt_of_le (Nat.lt_succ_self m) h2
  have hrec := pollRun_processing respond m hm
    (fun k rr hk1 hk2 hk => hbefore k rr hk1 (Nat.lt_succ_of_le hk2) hk)
  have hstep : pollRun respond (m + 1) =
      { screen := Screen.success, receipt := r.payment, attempts := m + 1
        active := false
        requestTimes := (List.range (m + 1)).map fun k => 3000 * k
        invoiceRefreshes := 1 } := by
    show pollStep respond (pollRun respond m) = _
    rw [hrec]
    simp [pollStep, pollAttemptTime, hN, hs, List.range_succ]
  refine ⟨?_, ?_, ?_, ?_, ?_⟩
  · rw [hstep]
  · rw [hstep]
  · rw [hstep]
  · rw [hstep]; simp
  · exact pollRun_absorb respond (m + 1) (by rw [hstep])

/-- Witness for C3: an endpoint settling on attempt 3 yields success there,
the receipt from its payment object, three requests, and no later change. -/
theorem polling_success_at_attempt_witness :
    (pollRun okRespond 3).screen = Screen.success
    ∧ (pollRun okRespond 3).receipt = some ⟨"success", 100, "R1"⟩
    ∧ (pollRun okRespond 3).requestTimes = [0, 3000, 6000]
    ∧ pollRun okRespond 12 = pollRun okRespond 3 := by
  have hthm := polling_success_at_attempt okRespond 3
    ⟨some ⟨"success", 100, "R1"⟩, none⟩ (by decide) (by decide)
    (fun k rr _ hk2 hk => by
      rw [okRespond, if_neg (Nat.ne_of_lt hk2)] at hk
      cases hk)
    (by rw [okRespond, if_pos rfl]) (by decide)
  refine ⟨hthm.1, hthm.2.1, ?_, hthm.2.2.2.2 12 (by decide)⟩
  rw [hthm.2.2.1]
  decide

/-- Claim C9: if the mount URL carries any of the `reference`, `trxref` or
`ref` query parameters, the flow enters processing immediately and
independently of the invoice load result (the statement holds for every
`invResult`), starts polling with that reference, and strips the visible
URL of its whole query string, so none of the three parameters remains
afterwards. -/
theorem redirect_enters_processing_and_strips
    (params : List (String × String)) (r : String) (invResult : Except Unit Invoice)
    (h : detectRef params = some r) :
    (mountPage params invResult).screen = Screen.processing
    ∧ (mountPage params invResult).visibleParams = []
    ∧ getParam (mountPage params invResult).visibleParams "reference" = none
    ∧ getParam (mountPage params invResult).visibleParams "trxref" = none
    ∧ getParam (mountPage params invResult).visibleParams "ref" = none
    ∧ (mountPage params invResult).polling = some r := by
  simp [mountPage, h, getParam]

/-- Witness for C9: a redirect URL with `?trxref=t1` mounts into processing
with a clean visible URL, even when the invoice fetch fails. -/
theorem redirect_enters_processing_and_strips_witness :
    (mountPage [("trxref", "t1")] (Except.error ())).screen = Screen.processing
    ∧ (mountPage [("trxref", "t1")] (Except.error ())).visibleParams = []
    ∧ (mountPage [("trxref", "t1")] (Except.error ())).polling = some "t1" := by
  have hthm := redirect_enters_processing_and_strips [("trxref", "t1")] "t1"
    (Except.error ()) (by decide)
  exact ⟨hthm.1, hthm.2.1, hthm.2.2.2.2.2⟩

/-- Claim C8: when the invoice fetch returns status "paid" and no
reference/trxref/ref parameter is present at mount, the page stays on the
main screen, never starts polling (so the parent loop issues no
status-check request), and renders the already-paid view rather than the
processing view (whose referenceless fallback is the only other source of
status checks). -/
theorem already_paid_skips_polling
    (params : List (String × String)) (inv : Invoice)
    (h : detectRef params = none) (hp : inv.status = "paid") :
    (mountPage params (Except.ok inv)).screen = Screen.main
    ∧ (mountPage params (Except.ok inv)).polling = none
    ∧ renderPage (mountPage params (Except.ok inv)) = View.alreadyPaidView
    ∧ renderPage (mountPage params (Except.ok inv)) ≠ View.processingView := by
  simp [mountPage, h, renderPage, hp]

/-- Witness for C8: a paid invoice loaded with no query parameters renders
already-paid without polling. -/
theorem already_paid_skips_polling_witness :
    (mountPage [] (Except.ok ⟨"paid", true⟩)).polling = none
    ∧ renderPage (mountPage [] (Except.ok ⟨"paid", true⟩)) = View.alreadyPaidView := by
  have hthm := already_paid_skips_polling [] ⟨"paid", true⟩ (by decide) rfl
  exact ⟨hthm.2.1, hthm.2.2.1⟩

/-- Helper: parent-loop ticks never log a referenceless request, so a fold
over tick events leaves the referenceless part of the request log
unchanged whenever the endpoint never settles. -/
theorem foldTicks_filter_noRef (respond : Nat → StatusOutcome)
    (psPaid : Except Unit Bool) (ref : String) (hns : neverSettles respond) :
    ∀ (evs : List (Nat × PageEvent)), (∀ e ∈ evs, e.2 = PageEvent.tick) →
    ∀ s : PageState,
      ((evs.foldl (stepEvent respond psPaid ref) s).requests).filter isNoRef
        = s.requests.filter isNoRef := by
  intro evs
  induction evs with
  | nil => intro _ s; rfl
  | cons e es ih =>
    intro hall s
    have he : e.2 = PageEvent.tick := hall e (List.mem_cons_self e es)
    rw [List.foldl_cons, ih (fun x hx => hall x (List.mem_cons_of_mem e hx))]
    obtain ⟨t, ev⟩ := e
    simp only at he
    subst he
    by_cases hpa : s.parentActive
    · cases hr : respond (s.attempts + 1) with
      | ok rr =>
        have hsr : settles rr = false := hns _ rr hr
        by_cases hle : maxAttempts ≤ s.attempts + 1 <;>
          simp [stepEvent, hpa, hr, hsr, hle, isNoRef, List.filter_append]
      | error err =>
        by_cases hle : maxAttempts ≤ s.attempts + 1 <;>
          simp [stepEvent, hpa, hr, hle, isNoRef, List.filter_append]
    · simp [stepEvent, hpa]

/-- Claim C4: after a provider redirect the parent strips the URL before
ProcessingScreen mounts, so ProcessingScreen's own reference lookup finds
none and its referenceless fallback runs instead: given a parent endpoint
that never settles, the session issues exactly one referenceless status
check, at 4000 ms, and that check moves the flow to success when it
reports `is_paid` and to failed otherwise — after only 2 of the parent's
20 attempts, well before the 3-second-interval budget is exhausted. -/
theorem processing_screen_second_path
    (params : List (String × String)) (r : String) (invResult : Except Unit Invoice)
    (hr : detectRef params = some r)
    (respond : Nat → StatusOutcome) (hns : neverSettles respond)
    (psPaid : Except Unit Bool) :
    psDetectRef (mountPage params invResult).visibleParams = none
    ∧ (mountPage params invResult).screen = Screen.processing
    ∧ (runPage respond psPaid r (baseSchedule.take 3)).requests.filter isNoRef
        = [(4000, ReqKind.statusNoRef)]
    ∧ (psPaid = Except.ok true →
        (runPage respond psPaid r (baseSchedule.take 3)).screen = Screen.success)
    ∧ (psPaid ≠ Except.ok true →
        (runPage respond psPaid r (baseSchedule.take 3)).screen = Screen.failed)
    ∧ (runPage respond psPaid r (baseSchedule.take 3)).attempts = 2
    ∧ 2 < maxAttempts
    ∧ (runPage respond psPaid r baseSchedule).requests.filter isNoRef
        = [(4000, ReqKind.statusNoRef)] := by
  have hstrip : (mountPage params invResult).visibleParams = [] := by
    simp [mountPage, hr]
  have hS2 : runPage respond psPaid r (baseSchedule.take 2)
      = { screen := Screen.processing, receipt := none, attempts := 2
          parentActive := true, psTimeoutPending := true, pageMounted := true
          requests := [(0, ReqKind.statusRef r), (3000, ReqKind.statusRef r)] } := by
    have ht : baseSchedule.take 2 = [(0, PageEvent.tick), (3000, PageEvent.tick)] := rfl
    rw [runPage, ht]
    cases hc1 : respond 1 with
    | ok r1 =>
      have hs1 := hns 1 r1 hc1
      cases hc2 : respond 2 with
      | ok r2 =>
        have hs2 := hns 2 r2 hc2
        simp [stepEvent, pageInit, hc1, hc2, hs1, hs2, maxAttempts]
      | error e2 => simp [stepEvent, pageInit, hc1, hc2, hs1, maxAttempts]
    | error e1 =>
      cases hc2 : respond 2 with
      | ok r2 =>
        have hs2 := hns 2 r2 hc2
        simp [stepEvent, pageInit, hc1, hc2, hs2, maxAttempts]
      | error e2 => simp [stepEvent, pageInit, hc1, hc2, maxAttempts]
  have hfold3 : runPage respond psPaid r (baseSchedule.take 3)
      = stepEvent respond psPaid r (runPage respond psPaid r (baseSchedule.take 2))
          (4000, PageEvent.psTimeout) := by
    have ht3 : baseSchedule.take 3
        = baseSchedule.take 2 ++ [(4000, PageEvent.psTimeout)] := rfl
    simp only [runPage, ht3, List.foldl_append, List.foldl_cons, List.foldl_nil]
  have hreq3 : (runPage respond psPaid r (baseSchedule.take 3)).requests
      = [(0, ReqKind.statusRef r), (3000, ReqKind.statusRef r)
        , (4000, ReqKind.statusNoRef)] := by
    rw [hfold3, hS2]
    cases psPaid with
    | ok b => cases b <;> simp [stepEvent]
    | error e => simp [stepEvent]
  have hatt3 : (runPage respond psPaid r (baseSchedule.take 3)).attempts = 2 := by
    rw [hfold3, hS2]
    cases psPaid with
    | ok b => cases b <;> simp [stepEvent]
    | error e => simp [stepEvent]
  have hfilter3 : (runPage respond psPaid r (baseSchedule.take 3)).requests.filter isNoRef
      = [(4000, ReqKind.statusNoRef)] := by
    rw [hreq3]
    simp [List.filter, isNoRef]
  have hfull : (runPage respond psPaid r baseSchedule).requests.filter isNoRef
      = (runPage respond psPaid r (baseSchedule.take 3)).requests.filter isNoRef := by
    have hsplit : runPage respond psPaid r baseSchedule
        = (baseSchedule.drop 3).foldl (stepEvent respond psPaid r)
            (runPage respond psPaid r (baseSchedule.take 3)) := by
      simp only [runPage]
      rw [← List.foldl_append, List.take_append_drop]
    rw [hsplit]
    exact foldTicks_filter_noRef respond psPaid r hns _ (by decide) _
  refine ⟨?_, by simp [mountPage, hr], hfilter3, ?_, ?_, hatt3, by decide,
    hfull.trans hfilter3⟩
  · rw [hstrip]; rfl
  · intro hp
    subst hp
    rw [hfold3, hS2]
    simp [stepEvent]
  · intro hp
    rw [hfold3, hS2]
    cases psPaid with
    | ok b =>
      cases b with
      | true => exact absurd rfl hp
      | false => simp [stepEvent]
    | error e => simp [stepEvent]

/-- Witness for C4: a concrete redirect session with a never-settling
refful endpoint and a referenceless check reporting unpaid reaches failed
at the 4-second fallback and issues exactly one referenceless request. -/
theorem processing_screen_second_path_witness :
    psDetectRef (mountPage [("reference", "abc123")]
        (Except.ok ⟨"unpaid", true⟩)).visibleParams = none
    ∧ (runPage errRespond (Except.ok false) "abc123" (baseSchedule.take 3)).screen
        = Screen.failed
    ∧ (runPage errRespond (Except.ok false) "abc123" (baseSchedule.take 3)).attempts = 2
    ∧ (runPage errRespond (Except.ok false) "abc123" baseSchedule).requests.filter isNoRef
        = [(4000, ReqKind.statusNoRef)] := by
  have hthm := processing_screen_second_path [("reference", "abc123")] "abc123"
    (Except.ok ⟨"unpaid", true⟩) (by decide) errRespond
    (fun k r hk => by simp [errRespond] at hk) (Except.ok false)
  exact ⟨hthm.1, hthm.2.2.2.2.1 (by intro h; simp at h), hthm.2.2.2.2.2.1,
    hthm.2.2.2.2.2.2.2⟩

/-- Claim C10 is violated by the code: the referenceless fallback
`setTimeout` id of ProcessingScreen is never stored, so no cleanup clears
it.  In a concrete redirect session with a never-settling endpoint,
unmounting the page at 2000 ms — while it is in processing — still lets
the fallback fire at 4000 ms and issue one more status-check request after
unmount, so the network-call count after unmount is not zero. -/
theorem timeout_fires_after_unmount :
    (runPage errRespond (Except.ok false) "abc123"
        ((schedWithUnmount 2000).take 1)).screen = Screen.processing
    ∧ (runPage errRespond (Except.ok false) "abc123"
        ((schedWithUnmount 2000).take 2)).pageMounted = false
    ∧ (runPage errRespond (Except.ok false) "abc123" (schedWithUnmount 2000)).requests
        = [(0, ReqKind.statusRef "abc123"), (4000, ReqKind.statusNoRef)]
    ∧ (runPage errRespond (Except.ok false) "abc123"
        (schedWithUnmount 2000)).requests.filter (fun q => 2000 < q.1)
        = [(4000, ReqKind.statusNoRef)] := by
  decide

end SchoolPay
